import Mathlib

/-!
Shallow embedding of the data-transformation core of the Venlo weather
dashboard (src/app.py) and proofs about its specified behaviour.

The embedding covers:
* the current-conditions shape normalizer (app.py lines 129-135) and the
  display reads of the canonical record (lines 146, 154-157);
* the WMO-code-to-emoji lookup table (get_weather_emoji, lines 90-99),
  with the Python dict modelled as an association list;
* the compass-bearing labelling (direction_to_text, lines 102-106), with
  Python round modelled exactly as round-half-to-even on rationals (the
  relevant quotients are exactly representable, so the binary float
  computed by the source agrees with the rational value);
* the hourly tabular projection (lines 204-219), where building the
  pandas DataFrame is modelled as requiring all columns to have equal
  length (pandas raises on a length mismatch, yielding no rows);
* the fixed-TTL cache around fetch_weather_data: the Streamlit decorator
  st.cache_data(ttl=600) (line 68) and the explicit clear() performed by
  the refresh button (line 116) are modelled as an explicit keyed cache
  state with a network-call counter, the raw network fetch being an
  abstract function.
-/

namespace VenloWeer

/-- A Python scalar stored in a current-conditions record: either the
Python constant None or a number (modelled as a rational). -/
inductive PyVal where
  | vnone : PyVal
  | num : ℚ → PyVal
deriving DecidableEq

/-- Python truthiness of such a value: None is falsy, a number is falsy
exactly when it is zero. -/
def PyVal.truthy : PyVal → Bool
  | .vnone => false
  | .num q => if q = 0 then false else true

/-- The Python expression (x or y): x when x is truthy, else y. -/
def pyOr (x y : PyVal) : PyVal := if x.truthy then x else y

/-- The current-conditions dict restricted to the keys the program reads
or writes.  A field holds none when the key is absent from the dict and
some v when the key is present with value v (v itself may be the Python
constant None, PyVal.vnone). -/
structure RawCurrent where
  temperature_2m : Option PyVal := none
  relative_humidity_2m : Option PyVal := none
  wind_speed_10m : Option PyVal := none
  wind_direction_10m : Option PyVal := none
  weather_code : Option PyVal := none
  temperature : Option PyVal := none
  windspeed : Option PyVal := none
  winddirection : Option PyVal := none
  weathercode : Option PyVal := none
deriving DecidableEq

/-- app.py lines 130-135: when the legacy key windspeed is present and
the modern key wind_speed_10m is absent, copy the legacy fields to the
modern names (each missing legacy field defaulting to 0 via dict.get)
and set relative_humidity_2m to the Python constant None. -/
def normalizeCurrent (c : RawCurrent) : RawCurrent :=
  if c.windspeed.isSome = true ∧ c.wind_speed_10m = none then
    { c with
        wind_speed_10m := c.windspeed
        wind_direction_10m := some (c.winddirection.getD (.num 0))
        temperature_2m := some (c.temperature.getD (.num 0))
        weather_code := some (c.weathercode.getD (.num 0))
        relative_humidity_2m := some .vnone }
  else c

/-- app.py line 154: current.get with default 0. -/
def displayTemp (c : RawCurrent) : PyVal := c.temperature_2m.getD (.num 0)

/-- app.py line 155: current.get (default None) followed by (or 0). -/
def displayHumidity (c : RawCurrent) : PyVal :=
  pyOr (c.relative_humidity_2m.getD .vnone) (.num 0)

/-- app.py line 156: current.get with default 0. -/
def displayWindSpeed (c : RawCurrent) : PyVal := c.wind_speed_10m.getD (.num 0)

/-- app.py line 157: current.get with default 0. -/
def displayWindDir (c : RawCurrent) : PyVal := c.wind_direction_10m.getD (.num 0)

/-- app.py line 146: current.get with default 0. -/
def displayWeatherCode (c : RawCurrent) : PyVal := c.weather_code.getD (.num 0)

/-- The dict literal of get_weather_emoji (app.py lines 92-98), modelled
as an association list in source order. -/
def weatherEmojiTable : List (ℤ × String) :=
  [(0, "☀️"), (1, "🌤️"), (2, "⛅"), (3, "☁️"), (45, "🌫️"), (48, "🌫️"),
   (51, "🌧️"), (53, "🌧️"), (55, "🌧️"), (61, "🌧️"), (63, "🌧️"), (65, "🌧️"),
   (66, "🌨️"), (67, "🌨️"), (71, "❄️"), (73, "❄️"), (75, "❄️"),
   (77, "❄️"), (80, "🌦️"), (81, "🌦️"), (82, "🌦️"), (85, "🌨️"), (86, "🌨️"),
   (95, "⛈️"), (96, "⛈️"), (99, "⛈️")]

/-- app.py line 99: codes.get(code, the thermometer fallback). -/
def get_weather_emoji (code : ℤ) : String :=
  (weatherEmojiTable.lookup code).getD "🌡️"

/-- The keys of the emoji dict, i.e. the closed set of known WMO codes. -/
def knownWeatherCodes : List ℤ :=
  [0, 1, 2, 3, 45, 48, 51, 53, 55, 61, 63, 65, 66, 67, 71, 73, 75, 77,
   80, 81, 82, 85, 86, 95, 96, 99]

/-- Python round for a rational argument: round half to even.  All
quotients the claims touch are exactly representable in binary floating
point (or far from a half-integer), so this agrees with the float
computation performed by the source. -/
def pyRound (q : ℚ) : ℤ :=
  if q - ⌊q⌋ < 1/2 then ⌊q⌋
  else if (1:ℚ)/2 < q - ⌊q⌋ then ⌊q⌋ + 1
  else if ⌊q⌋ % 2 = 0 then ⌊q⌋ else ⌊q⌋ + 1

/-- app.py line 104: the 16 Dutch compass labels. -/
def directions : List String :=
  ["N", "NNO", "NO", "ONO", "O", "OZO", "ZO", "ZZO", "Z", "ZZW", "ZW",
   "WZW", "W", "WNW", "NW", "NNW"]

/-- app.py lines 102-106: idx = round(degrees / 22.5) % 16, then index
into the label list (the index is always in range, so the default is
never used). -/
def direction_to_text (degrees : ℚ) : String :=
  directions.getD (pyRound (degrees / (45/2)) % 16).toNat ""

/-- The hourly section of the response: each field holds none when the
key is absent and some of the array when present.  A precipitation
probability entry may itself be null, hence Option inside that list. -/
structure HourlySection where
  time : Option (List String) := none
  temperature_2m : Option (List ℚ) := none
  wind_speed_10m : Option (List ℚ) := none
  wind_direction_10m : Option (List ℚ) := none
  precipitation_probability : Option (List (Option ℚ)) := none
deriving DecidableEq

/-- app.py line 206: hourly.get with default the empty list, sliced to 48. -/
def timesCol (h : HourlySection) : List String := (h.time.getD []).take 48

/-- app.py line 207: hourly.get with default the empty list, sliced to 48. -/
def tempsCol (h : HourlySection) : List ℚ := (h.temperature_2m.getD []).take 48

/-- app.py line 208: hourly.get with default the empty list, sliced to 48. -/
def windSpeedsCol (h : HourlySection) : List ℚ :=
  (h.wind_speed_10m.getD []).take 48

/-- app.py line 209: hourly.get with default the empty list, sliced to 48. -/
def windDirsCol (h : HourlySection) : List ℚ :=
  (h.wind_direction_10m.getD []).take 48

/-- app.py line 210: hourly.get with default a list of 48 Python None
values, sliced to 48. -/
def precipProbsCol (h : HourlySection) : List (Option ℚ) :=
  (h.precipitation_probability.getD (List.replicate 48 none)).take 48

/-- app.py line 213: t sliced as t[11:16] when len(t) > 10, else t. -/
def tijdEntry (t : String) : String :=
  if 10 < t.length then (t.drop 11).take 5 else t

/-- app.py line 214: t sliced as t[:10]. -/
def datumEntry (t : String) : String := t.take 10

/-- One row of the hourly DataFrame built at app.py lines 212-219. -/
structure HourlyRow where
  tijd : String
  datum : String
  temp : ℚ
  wind : ℚ
  windrichting : String
  neerslag : Option ℚ
deriving DecidableEq

/-- Zip the five hourly columns into rows, as the DataFrame constructor
lays them out; stops at the shortest column (only used when all columns
have equal length). -/
def zipHourlyRows :
    List String → List ℚ → List ℚ → List ℚ → List (Option ℚ) → List HourlyRow
  | t :: ts, x :: xs, w :: ws, d :: ds, p :: ps =>
      { tijd := tijdEntry t, datum := datumEntry t, temp := x, wind := w,
        windrichting := direction_to_text d, neerslag := p }
        :: zipHourlyRows ts xs ws ds ps
  | _, _, _, _, _ => []

/-- app.py lines 212-219: the hourly DataFrame.  pandas raises when the
columns do not all have the same length, which is modelled by returning
none in that case (no rows are produced). -/
def hourlyProjection (h : HourlySection) : Option (List HourlyRow) :=
  if (tempsCol h).length = (timesCol h).length ∧
     (windSpeedsCol h).length = (timesCol h).length ∧
     (windDirsCol h).length = (timesCol h).length ∧
     (precipProbsCol h).length = (timesCol h).length then
    some (zipHourlyRows (timesCol h) (tempsCol h) (windSpeedsCol h)
      (windDirsCol h) (precipProbsCol h))
  else none

/-- State of the st.cache_data memoization of fetch_weather_data: one
entry per argument pair (keyed by latitude and longitude), each carrying
the time it was stored and the cached value, plus a counter of network
calls performed so far (the observable side effect). -/
structure CacheState (α : Type) where
  entries : List ((ℚ × ℚ) × Nat × α)
  netCalls : Nat
deriving DecidableEq

/-- Look up the cache entry for a key. -/
def lookupEntry (key : ℚ × ℚ) : List ((ℚ × ℚ) × Nat × α) → Option (Nat × α)
  | [] => none
  | e :: rest => if e.1 = key then some e.2 else lookupEntry key rest

/-- app.py line 68: ttl=600 seconds (10 minutes). -/
def cacheTTL : Nat := 600

/-- Perform the raw network fetch, store the result under the key, and
count one network call. -/
def storeFresh (net : ℚ → ℚ → α) (now : Nat) (lat lon : ℚ)
    (s : CacheState α) : α × CacheState α :=
  (net lat lon,
   { entries := ((lat, lon), now, net lat lon)
        :: s.entries.filter (fun e => decide (e.1 ≠ (lat, lon))),
     netCalls := s.netCalls + 1 })

/-- app.py lines 68-87 as seen through st.cache_data(ttl=600): a call
first consults the cache; a hit younger than the TTL is returned with no
network activity, otherwise the raw fetch runs and is stored. -/
def fetch_weather_data (net : ℚ → ℚ → α) (now : Nat) (lat lon : ℚ)
    (s : CacheState α) : α × CacheState α :=
  match lookupEntry (lat, lon) s.entries with
  | some (t0, v) =>
      if now < t0 + cacheTTL then (v, s) else storeFresh net now lat lon s
  | none => storeFresh net now lat lon s

/-- app.py line 116: fetch_weather_data.clear() drops every cache entry
(and performs no network call). -/
def clearCache (s : CacheState α) : CacheState α :=
  { entries := [], netCalls := s.netCalls }

/-- The legacy-shaped current record of the spec test vector:
temperature 12.5, windspeed 20, winddirection 90, weathercode 3. -/
def legacyCurrentExample : RawCurrent :=
  { temperature := some (.num (25/2)), windspeed := some (.num 20),
    winddirection := some (.num 90), weathercode := some (.num 3) }

/-- A current record with every key absent. -/
def emptyCurrent : RawCurrent := {}

/-- An already-canonical (modern-shaped) current record. -/
def modernCurrentExample : RawCurrent :=
  { temperature_2m := some (.num 18), relative_humidity_2m := some (.num 60),
    wind_speed_10m := some (.num 12), wind_direction_10m := some (.num 200),
    weather_code := some (.num 1) }

/-- A modern-shaped record whose measured relative humidity is exactly 0. -/
def measuredZeroHumidity : RawCurrent :=
  { temperature_2m := some (.num 10), relative_humidity_2m := some (.num 0),
    wind_speed_10m := some (.num 5), wind_direction_10m := some (.num 90),
    weather_code := some (.num 0) }

/-- An hourly section with a 5-entry horizon and no precipitation
probability array. -/
def exampleHourly5 : HourlySection :=
  { time := some ["2024-06-01T00:00", "2024-06-01T01:00", "2024-06-01T02:00",
                  "2024-06-01T03:00", "2024-06-01T04:00"],
    temperature_2m := some [10, 11, 12, 13, 14],
    wind_speed_10m := some [5, 5, 5, 5, 5],
    wind_direction_10m := some [90, 90, 90, 90, 90] }

/-- An hourly section with a 10-entry horizon and no precipitation
probability array. -/
def exampleHourly10NoPrecip : HourlySection :=
  { time := some (List.replicate 10 "2024-06-02T00:00"),
    temperature_2m := some (List.replicate 10 8),
    wind_speed_10m := some (List.replicate 10 3),
    wind_direction_10m := some (List.replicate 10 45) }

/-- An hourly section with a full 72-entry horizon, all arrays present. -/
def exampleHourly72 : HourlySection :=
  { time := some (List.replicate 72 "2024-06-01T00:00"),
    temperature_2m := some (List.replicate 72 15),
    wind_speed_10m := some (List.replicate 72 10),
    wind_direction_10m := some (List.replicate 72 180),
    precipitation_probability := some (List.replicate 72 (some 20)) }

/-- An hourly section with a 72-entry horizon whose precipitation
probability array is absent. -/
def exampleHourly72NoPrecip : HourlySection :=
  { time := some (List.replicate 72 "2024-06-01T00:00"),
    temperature_2m := some (List.replicate 72 15),
    wind_speed_10m := some (List.replicate 72 10),
    wind_direction_10m := some (List.replicate 72 180) }

/-- A constant network fetch used to instantiate the cache model. -/
def net0 : ℚ → ℚ → ℕ := fun _ _ => 42

/-- An empty cache with no network calls performed. -/
def s0 : CacheState ℕ := { entries := [], netCalls := 0 }

/-- Claim C4: normalizing the legacy-shaped current record
(temperature 12.5, windspeed 20, winddirection 90, weathercode 3) yields
a canonical record with temperature_2m = 12.5, wind_speed_10m = 20,
wind_direction_10m = 90, weather_code = 3, and the humidity field marked
unknown (the Python constant None). -/
theorem C4_legacy_normalization :
    (normalizeCurrent legacyCurrentExample).temperature_2m = some (.num (25/2)) ∧
    (normalizeCurrent legacyCurrentExample).wind_speed_10m = some (.num 20) ∧
    (normalizeCurrent legacyCurrentExample).wind_direction_10m = some (.num 90) ∧
    (normalizeCurrent legacyCurrentExample).weather_code = some (.num 3) ∧
    (normalizeCurrent legacyCurrentExample).relative_humidity_2m = some .vnone := by
  refine ⟨?_, ?_, ?_, ?_, ?_⟩ <;> rfl

/-- Claim C5: current-conditions normalization is total (the embedding is
a total function by construction, mirroring dict.get which cannot fail),
and each canonical numeric field whose keys are entirely missing from the
input, modern and legacy alike, is displayed as zero. -/
theorem C5_normalizer_total_defaults (c : RawCurrent) :
    (c.temperature_2m = none → c.temperature = none →
        displayTemp (normalizeCurrent c) = PyVal.num 0) ∧
    (c.wind_speed_10m = none → c.windspeed = none →
        displayWindSpeed (normalizeCurrent c) = PyVal.num 0) ∧
    (c.wind_direction_10m = none → c.winddirection = none →
        displayWindDir (normalizeCurrent c) = PyVal.num 0) ∧
    (c.weather_code = none → c.weathercode = none →
        displayWeatherCode (normalizeCurrent c) = PyVal.num 0) := by
  by_cases hcond : c.windspeed.isSome = true ∧ c.wind_speed_10m = none
  · refine ⟨?_, ?_, ?_, ?_⟩
    · intro _ h2
      simp [normalizeCurrent, hcond, displayTemp, h2]
    · intro _ h2
      exact absurd hcond.1 (by simp [h2])
    · intro _ h2
      simp [normalizeCurrent, hcond, displayWindDir, h2]
    · intro _ h2
      simp [normalizeCurrent, hcond, displayWeatherCode, h2]
  · refine ⟨?_, ?_, ?_, ?_⟩
    · intro h1 _
      simp [normalizeCurrent, hcond, displayTemp, h1]
    · intro h1 h2
      simp [normalizeCurrent, displayWindSpeed, h1, h2]
    · intro h1 _
      simp [normalizeCurrent, hcond, displayWindDir, h1]
    · intro h1 _
      simp [normalizeCurrent, hcond, displayWeatherCode, h1]

/-- Witness for C5 at the record with every key absent. -/
theorem C5_normalizer_total_defaults_witness :
    displayTemp (normalizeCurrent emptyCurrent) = PyVal.num 0 ∧
    displayWindSpeed (normalizeCurrent emptyCurrent) = PyVal.num 0 ∧
    displayWindDir (normalizeCurrent emptyCurrent) = PyVal.num 0 ∧
    displayWeatherCode (normalizeCurrent emptyCurrent) = PyVal.num 0 :=
  ⟨(C5_normalizer_total_defaults emptyCurrent).1 rfl rfl,
   (C5_normalizer_total_defaults emptyCurrent).2.1 rfl rfl,
   (C5_normalizer_total_defaults emptyCurrent).2.2.1 rfl rfl,
   (C5_normalizer_total_defaults emptyCurrent).2.2.2 rfl rfl⟩

/-- Claim C9: the normalizer is idempotent on canonical records: any
record already carrying the modern key wind_speed_10m passes through the
normalization step unchanged. -/
theorem C9_normalizer_idempotent (c : RawCurrent)
    (h : c.wind_speed_10m.isSome = true) :
    normalizeCurrent c = c := by
  unfold normalizeCurrent
  rw [if_neg]
  rintro ⟨-, h2⟩
  rw [h2] at h
  simp at h

/-- Witness for C9 at a concrete modern-shaped record. -/
theorem C9_normalizer_idempotent_witness :
    normalizeCurrent modernCurrentExample = modernCurrentExample :=
  C9_normalizer_idempotent modernCurrentExample rfl

/-- Claim C10: for every legacy-shaped current record the humidity value
actually displayed is 0 (the None sentinel is coalesced by the (or 0)
read), and a measured relative humidity of exactly 0 displays as the
same value, so the two are indistinguishable at the presentation
boundary. -/
theorem C10_legacy_humidity_displays_zero :
    (∀ c : RawCurrent, c.windspeed.isSome = true → c.wind_speed_10m = none →
        displayHumidity (normalizeCurrent c) = PyVal.num 0) ∧
    displayHumidity measuredZeroHumidity = PyVal.num 0 := by
  constructor
  · intro c h1 h2
    simp [normalizeCurrent, h1, h2, displayHumidity, pyOr, PyVal.truthy]
  · rfl

/-- Witness for C10 at the legacy-shaped test record. -/
theorem C10_legacy_humidity_displays_zero_witness :
    displayHumidity (normalizeCurrent legacyCurrentExample) = PyVal.num 0 :=
  C10_legacy_humidity_displays_zero.1 legacyCurrentExample rfl rfl

/-- Looking a key up in an association list it does not occur in gives
none. -/
theorem lookup_eq_none_of_not_mem_keys (c : ℤ) (l : List (ℤ × String))
    (h : c ∉ l.map Prod.fst) : l.lookup c = none := by
  induction l with
  | nil => rfl
  | cons e rest ih =>
      obtain ⟨k, v⟩ := e
      simp only [List.map_cons, List.mem_cons, not_or] at h
      obtain ⟨h1, h2⟩ := h
      simp only [List.lookup, beq_eq_false_iff_ne.mpr h1]
      exact ih h2

/-- Claim C8: get_weather_emoji is total over all integers; every code in
the fixed known set gets a non-fallback glyph and every integer outside
it gets the generic fallback glyph. -/
theorem C8_emoji_total (c : ℤ) :
    (c ∈ knownWeatherCodes → get_weather_emoji c ≠ "🌡️") ∧
    (c ∉ knownWeatherCodes → get_weather_emoji c = "🌡️") := by
  constructor
  · intro h
    fin_cases h <;> decide
  · intro h
    have hkeys : weatherEmojiTable.map Prod.fst = knownWeatherCodes := by rfl
    have hk : c ∉ weatherEmojiTable.map Prod.fst := by
      rw [hkeys]; exact h
    unfold get_weather_emoji
    rw [lookup_eq_none_of_not_mem_keys c weatherEmojiTable hk]
    rfl

/-- Witness for C8: code 3 is known and gets a non-fallback glyph, code 4
is unknown and gets the fallback. -/
theorem C8_emoji_total_witness :
    get_weather_emoji 3 ≠ "🌡️" ∧ get_weather_emoji 4 = "🌡️" :=
  ⟨(C8_emoji_total 3).1 (by decide), (C8_emoji_total 4).2 (by decide)⟩

/-- Claim C7: the hourly projection splits a timestamp longer than 10
characters into its first 10 characters as the date and the 5 characters
starting at position 11 as the time of day, and passes a short timestamp
through unchanged as the time field; in particular the spec test vector
splits as stated. -/
theorem C7_timestamp_split :
    (∀ t : String, 10 < t.length →
        datumEntry t = t.take 10 ∧ tijdEntry t = (t.drop 11).take 5) ∧
    (∀ t : String, t.length ≤ 10 → tijdEntry t = t) ∧
    tijdEntry "2024-06-01T14:30" = "14:30" ∧
    datumEntry "2024-06-01T14:30" = "2024-06-01" ∧
    tijdEntry "14:30" = "14:30" := by
  refine ⟨?_, ?_, ?_, ?_, ?_⟩
  · intro t h
    refine ⟨rfl, ?_⟩
    unfold tijdEntry
    rw [if_pos h]
  · intro t h
    unfold tijdEntry
    rw [if_neg (Nat.not_lt.mpr h)]
  · rfl
  · rfl
  · rfl

/-- Witness for C7 at the spec test vector. -/
theorem C7_timestamp_split_witness :
    datumEntry "2024-06-01T14:30" = "2024-06-01T14:30".take 10 ∧
    tijdEntry "2024-06-01T14:30" = ("2024-06-01T14:30".drop 11).take 5 ∧
    tijdEntry "14:30" = "14:30" :=
  ⟨(C7_timestamp_split.1 "2024-06-01T14:30" (by decide)).1,
   (C7_timestamp_split.1 "2024-06-01T14:30" (by decide)).2,
   C7_timestamp_split.2.1 "14:30" (by decide)⟩

/-- Counterexample for claim C3: for the 5-entry hourly section with no
precipitation array, the precipitation column has 48 entries while the
time column (and hence every other hourly column) has 5, so its length
does not equal the number of projected rows; indeed the DataFrame
cannot be assembled at all. -/
theorem C3_counterexample :
    exampleHourly5.precipitation_probability = none ∧
    (precipProbsCol exampleHourly5).length = 48 ∧
    (timesCol exampleHourly5).length = 5 ∧
    (precipProbsCol exampleHourly5).length ≠ (timesCol exampleHourly5).length ∧
    hourlyProjection exampleHourly5 = none := by
  refine ⟨rfl, rfl, rfl, by decide, rfl⟩

/-- Claim C3 as amended: when the precipitation-probability array is
absent the precipitation column is always the fixed 48-entry sequence of
unknown markers; its length matches the other hourly columns exactly
when the upstream horizon is at least 48. -/
theorem C3_missing_precip_unknowns (h : HourlySection)
    (habs : h.precipitation_probability = none) :
    precipProbsCol h = List.replicate 48 none ∧
    (∀ p ∈ precipProbsCol h, p = none) ∧
    (48 ≤ (h.time.getD []).length →
        (precipProbsCol h).length = (timesCol h).length) := by
  have hcol : precipProbsCol h = List.replicate 48 none := by
    simp [precipProbsCol, habs]
  refine ⟨hcol, ?_, ?_⟩
  · intro p hp
    rw [hcol] at hp
    exact (List.eq_of_mem_replicate hp)
  · intro hlen
    rw [hcol]
    simp [timesCol, List.length_take]
    omega

/-- Witness for the amended C3 at a 72-entry horizon. -/
theorem C3_missing_precip_unknowns_witness :
    precipProbsCol exampleHourly72NoPrecip = List.replicate 48 none ∧
    (precipProbsCol exampleHourly72NoPrecip).length
      = (timesCol exampleHourly72NoPrecip).length :=
  ⟨(C3_missing_precip_unknowns exampleHourly72NoPrecip rfl).1,
   (C3_missing_precip_unknowns exampleHourly72NoPrecip rfl).2.2 (by decide)⟩

/-- Zipping five columns of equal length produces that many rows. -/
theorem zipHourlyRows_length (ts : List String) :
    ∀ (xs ws ds : List ℚ) (ps : List (Option ℚ)),
    xs.length = ts.length → ws.length = ts.length → ds.length = ts.length →
    ps.length = ts.length →
    (zipHourlyRows ts xs ws ds ps).length = ts.length := by
  induction ts with
  | nil =>
      intro xs ws ds ps h1 _ _ _
      cases xs with
      | nil => rfl
      | cons a as => exact absurd h1 (by simp)
  | cons t ts ih =>
      intro xs ws ds ps h1 h2 h3 h4
      cases xs with
      | nil => exact absurd h1 (by simp)
      | cons x xs =>
        cases ws with
        | nil => exact absurd h2 (by simp)
        | cons w ws =>
          cases ds with
          | nil => exact absurd h3 (by simp)
          | cons d ds =>
            cases ps with
            | nil => exact absurd h4 (by simp)
            | cons p ps =>
              simp only [zipHourlyRows, List.length_cons] at h1 h2 h3 h4 ⊢
              rw [ih xs ws ds ps (by omega) (by omega) (by omega) (by omega)]

/-- Counterexample for claim C6: the 10-entry hourly section with no
precipitation array yields no rows at all (the columns have mismatched
lengths 10 and 48), not the min(48, 10) = 10 rows the claim demands. -/
theorem C6_counterexample :
    (exampleHourly10NoPrecip.time.getD []).length = 10 ∧
    hourlyProjection exampleHourly10NoPrecip = none := by
  exact ⟨rfl, rfl⟩

/-- Claim C6 as amended: for an hourly section whose present arrays all
have the upstream horizon n as length, and in which the precipitation
array is present or n is at least 48, the projection yields exactly
min(48, n) rows; in particular 72 aligned entries project to 48 rows and
10 aligned entries (precipitation included) project to 10. -/
theorem C6_projection_truncation (tms : List String) (xs ws ds : List ℚ)
    (pp : Option (List (Option ℚ))) (n : Nat)
    (htm : tms.length = n) (hx : xs.length = n) (hw : ws.length = n)
    (hd : ds.length = n)
    (hp : ∀ l, pp = some l → l.length = n) (hpn : pp = none → 48 ≤ n) :
    ∃ rows,
      hourlyProjection
        { time := some tms, temperature_2m := some xs,
          wind_speed_10m := some ws, wind_direction_10m := some ds,
          precipitation_probability := pp } = some rows ∧
      rows.length = min 48 n := by
  have htc : timesCol
      { time := some tms, temperature_2m := some xs,
        wind_speed_10m := some ws, wind_direction_10m := some ds,
        precipitation_probability := pp } = tms.take 48 := rfl
  have hlen_t : (tms.take 48).length = min 48 n := by
    rw [List.length_take, htm]
  have hlen_x : (xs.take 48).length = min 48 n := by
    rw [List.length_take, hx]
  have hlen_w : (ws.take 48).length = min 48 n := by
    rw [List.length_take, hw]
  have hlen_d : (ds.take 48).length = min 48 n := by
    rw [List.length_take, hd]
  have hlen_p : (precipProbsCol
      { time := some tms, temperature_2m := some xs,
        wind_speed_10m := some ws, wind_direction_10m := some ds,
        precipitation_probability := pp }).length = min 48 n := by
    cases pp with
    | none =>
        have h48 : 48 ≤ n := hpn rfl
        simp [precipProbsCol]
        omega
    | some l =>
        have hl : l.length = n := hp l rfl
        simp [precipProbsCol, List.length_take, hl]
  refine ⟨zipHourlyRows (tms.take 48) (xs.take 48) (ws.take 48) (ds.take 48)
      (precipProbsCol
        { time := some tms, temperature_2m := some xs,
          wind_speed_10m := some ws, wind_direction_10m := some ds,
          precipitation_probability := pp }), ?_, ?_⟩
  · unfold hourlyProjection
    rw [if_pos]
    · rfl
    · refine ⟨?_, ?_, ?_, ?_⟩
      · simp only [tempsCol, timesCol, Option.getD_some]
        rw [hlen_x, hlen_t]
      · simp only [windSpeedsCol, timesCol, Option.getD_some]
        rw [hlen_w, hlen_t]
      · simp only [windDirsCol, timesCol, Option.getD_some]
        rw [hlen_d, hlen_t]
      · simp only [timesCol, Option.getD_some]
        rw [hlen_p, hlen_t]
  · rw [zipHourlyRows_length (tms.take 48) (xs.take 48) (ws.take 48)
      (ds.take 48) _ (by rw [hlen_x, hlen_t]) (by rw [hlen_w, hlen_t])
      (by rw [hlen_d, hlen_t]) (by rw [hlen_p, hlen_t]), hlen_t]

/-- Witness for the amended C6 at the 72-entry aligned section. -/
theorem C6_projection_truncation_witness :
    ∃ rows, hourlyProjection exampleHourly72 = some rows ∧
      rows.length = min 48 72 :=
  C6_projection_truncation (List.replicate 72 "2024-06-01T00:00")
    (List.replicate 72 15) (List.replicate 72 10) (List.replicate 72 180)
    (some (List.replicate 72 (some 20))) 72
    (by simp) (by simp) (by simp) (by simp)
    (by intro l hl; simp only [Option.some.injEq] at hl; rw [← hl]; simp)
    (by intro hcontra; exact Option.noConfusion hcontra)

/-- For a rational between 15.5 and 16 inclusive, Python rounding gives
16: above the midpoint it rounds up, and at the midpoint 15.5 the
half-to-even rule also goes up to the even 16. -/
theorem pyRound_upper_sector (q : ℚ) (h1 : 31/2 ≤ q) (h2 : q ≤ 16) :
    pyRound q = 16 := by
  have hfl : ⌊q⌋ = 15 ∨ ⌊q⌋ = 16 := by
    have ha : (15:ℤ) ≤ ⌊q⌋ := Int.le_floor.mpr (by push_cast; linarith)
    have hb : (⌊q⌋:ℚ) ≤ 16 := le_trans (Int.floor_le q) h2
    have hb2 : ⌊q⌋ ≤ (16:ℤ) := by exact_mod_cast hb
    omega
  rcases hfl with h15 | h16
  · have hge : 1/2 ≤ q - 15 := by linarith
    unfold pyRound
    rw [h15]
    push_cast
    rcases lt_or_le (1/2 : ℚ) (q - 15) with hgt | hle2
    · rw [if_neg (by linarith), if_pos hgt]
    · have heq : q - 15 = 1/2 := le_antisymm hle2 hge
      rw [if_neg (by linarith), if_neg (by linarith)]
  · have hup : (16:ℚ) ≤ q := by
      have := Int.le_floor.mp h16.ge
      exact_mod_cast this
    have hq : q = 16 := le_antisymm h2 hup
    unfold pyRound
    rw [h16, hq]
    norm_num

/-- Counterexample for claim C2: at the exact sector boundary 11.25 the
quotient 11.25 / 22.5 is exactly one half, which Python rounds to the
even integer 0, so the code returns the first point N and not the second
point NNO the claim demands. -/
theorem C2_boundary_counterexample :
    direction_to_text ((1125:ℚ)/100) = "N" ∧
    direction_to_text ((1125:ℚ)/100) ≠ "NNO" := by
  have h : direction_to_text ((1125:ℚ)/100) = "N" := by
    norm_num [direction_to_text, pyRound, directions]
  exact ⟨h, by rw [h]; decide⟩

/-- Claim C2 as amended: 11.24 maps to the first point N and 11.26 to the
second point NNO, the exact boundary 11.25 rounds to the FIRST point N
(round half to even), and every bearing from 348.75 up to 360 wraps back
to the first point N. -/
theorem C2_sector_labels :
    direction_to_text ((1124:ℚ)/100) = "N" ∧
    direction_to_text ((1126:ℚ)/100) = "NNO" ∧
    direction_to_text ((1125:ℚ)/100) = "N" ∧
    ∀ d : ℚ, (34875:ℚ)/100 ≤ d → d ≤ 360 → direction_to_text d = "N" := by
  refine ⟨?_, ?_, ?_, ?_⟩
  · norm_num [direction_to_text, pyRound, directions]
  · norm_num [direction_to_text, pyRound, directions]
  · norm_num [direction_to_text, pyRound, directions]
  · intro d hlo hhi
    have h1 : (31:ℚ)/2 ≤ d / (45/2) := by
      rw [le_div_iff₀ (by norm_num : (0:ℚ) < 45/2)]
      linarith
    have h2 : d / (45/2) ≤ 16 := by
      rw [div_le_iff₀ (by norm_num : (0:ℚ) < 45/2)]
      linarith
    have hpr : pyRound (d / (45/2)) = 16 := pyRound_upper_sector _ h1 h2
    unfold direction_to_text
    rw [hpr]
    rfl

/-- Witness for the amended C2 at the bearing 350. -/
theorem C2_sector_labels_witness : direction_to_text (350:ℚ) = "N" :=
  C2_sector_labels.2.2.2 350 (by norm_num) (by norm_num)

/-- Claim C1: starting from a cache with no entry for the key, a first
fetch performs one network call; a second fetch with the same
coordinates inside the 10-minute freshness window returns the previously
fetched structure and leaves the cache state entirely unchanged (zero
network side effects, exactly one call between the two invocations); and
a fetch performed after an explicit refresh (clear) performs a new
network call even inside the window. -/
theorem C1_cache_freshness (α : Type) (net : ℚ → ℚ → α) (t0 t1 : Nat)
    (lat lon : ℚ) (s : CacheState α)
    (hmiss : lookupEntry (lat, lon) s.entries = none)
    (hle : t0 ≤ t1) (hwin : t1 < t0 + cacheTTL) :
    (fetch_weather_data net t1 lat lon (fetch_weather_data net t0 lat lon s).2).1
      = (fetch_weather_data net t0 lat lon s).1 ∧
    (fetch_weather_data net t1 lat lon (fetch_weather_data net t0 lat lon s).2).2
      = (fetch_weather_data net t0 lat lon s).2 ∧
    (fetch_weather_data net t0 lat lon s).2.netCalls = s.netCalls + 1 ∧
    (fetch_weather_data net t1 lat lon
        (clearCache (fetch_weather_data net t0 lat lon s).2)).2.netCalls
      = s.netCalls + 2 := by
  have h0 : fetch_weather_data net t0 lat lon s = storeFresh net t0 lat lon s := by
    unfold fetch_weather_data
    rw [hmiss]
  have hlook : lookupEntry (lat, lon) (storeFresh net t0 lat lon s).2.entries
      = some (t0, net lat lon) := by
    simp [storeFresh, lookupEntry]
  have h1 : fetch_weather_data net t1 lat lon (storeFresh net t0 lat lon s).2
      = (net lat lon, (storeFresh net t0 lat lon s).2) := by
    unfold fetch_weather_data
    rw [hlook]
    exact if_pos hwin
  refine ⟨?_, ?_, ?_, ?_⟩
  · rw [h0, h1]
    rfl
  · rw [h0, h1]
  · rw [h0]
    rfl
  · rw [h0]
    have hclear : lookupEntry (lat, lon)
        (clearCache (storeFresh net t0 lat lon s).2).entries = none := rfl
    unfold fetch_weather_data
    rw [hclear]
    rfl

/-- Witness for C1: a first fetch at time 0 against an empty cache and a
second one at time 100 with the same coordinates. -/
theorem C1_cache_freshness_witness :
    (fetch_weather_data net0 100 51 6 (fetch_weather_data net0 0 51 6 s0).2).1
      = (fetch_weather_data net0 0 51 6 s0).1 ∧
    (fetch_weather_data net0 100 51 6 (fetch_weather_data net0 0 51 6 s0).2).2
      = (fetch_weather_data net0 0 51 6 s0).2 ∧
    (fetch_weather_data net0 0 51 6 s0).2.netCalls = s0.netCalls + 1 ∧
    (fetch_weather_data net0 100 51 6
        (clearCache (fetch_weather_data net0 0 51 6 s0).2)).2.netCalls
      = s0.netCalls + 2 :=
  C1_cache_freshness ℕ net0 0 100 51 6 s0 rfl (by omega) (by decide)

end VenloWeer
